import Mathlib

/-!
Shallow embedding of the VSched night classifier (`vsched.py`).

Timestamps are modelled as integers (minutes), moon illumination fractions
and altitudes as rationals.  Python exceptions raised inside the `vephem`
constructor are modelled by an error type threaded through `Except`:
`indexOutOfBounds` for the explicit RuntimeException raises and list
over-indexing in `find_events`, `attributeError` for reading `.label` of a
`None` moon event, and `nameError` for the undefined names `moon` / `rhv`
assigned in two branches of `find_moon`.
-/

inductive Label where
  | sunset
  | sunrise
  | moonset
  | moonrise
deriving DecidableEq, Repr

/-- One sun/moon rise/set event: time, moon illumination fraction at that
time, moon altitude at that time, and its label (class `event`). -/
structure Event where
  dt : ℤ
  moon_frac : ℚ
  moon_alt : ℚ
  label : Label
deriving DecidableEq, Repr

/-- The four events of one night, as fields of the `vephem` object after
`parse_string` has run. -/
structure NightRecord where
  sunset : Event
  sunrise : Event
  moonset : Event
  moonrise : Event
deriving DecidableEq, Repr

/-- The labels a parsed record carries: `parse_string` tags the four events
with the fixed labels sunset / sunrise / moonset / moonrise. -/
abbrev wellLabelled (v : NightRecord) : Prop :=
  v.sunset.label = Label.sunset ∧ v.sunrise.label = Label.sunrise ∧
    v.moonset.label = Label.moonset ∧ v.moonrise.label = Label.moonrise

/-- The configuration globals `max_rhv_phase`, `max_moon_phase`,
`minimum_interval` set from the command line. -/
structure Config where
  max_rhv_phase : ℚ
  max_moon_phase : ℚ
  minimum_interval : ℤ
deriving DecidableEq, Repr

/-- Default configuration: rhv phase 0.666, moon phase 0.300, minimum
interval two hours (120 minutes). -/
def defaultCfg : Config := ⟨mkRat 666 1000, mkRat 300 1000, 120⟩

inductive VError where
  | indexOutOfBounds
  | attributeError
  | nameError
deriving DecidableEq, Repr

instance {e a : Type} [DecidableEq e] [DecidableEq a] : DecidableEq (Except e a) :=
  fun x y =>
  match x, y with
  | Except.error u, Except.error w =>
    if h : u = w then isTrue (by rw [h]) else isFalse fun hc => h (Except.error.inj hc)
  | Except.error _, Except.ok _ => isFalse fun hc => Except.noConfusion hc
  | Except.ok _, Except.error _ => isFalse fun hc => Except.noConfusion hc
  | Except.ok u, Except.ok w =>
    if h : u = w then isTrue (by rw [h]) else isFalse fun hc => h (Except.ok.inj hc)

inductive MoonMode where
  | moonlight
  | rhv
deriving DecidableEq, Repr

/-- Stable insertion of an event into a list sorted by `dt`: the event goes
in front of the first element it is `≤`-comparable below-or-equal to.  This
reproduces the stable ascending order of Python `sorted`, which compares
events with `event.__lt__` (timestamp only). -/
def orderedInsertE (x : Event) : List Event → List Event
  | [] => [x]
  | y :: ys => if x.dt ≤ y.dt then x :: y :: ys else y :: orderedInsertE x ys

/-- Stable sort by timestamp, as Python `sorted` on a list of `event`s. -/
def sortEvents : List Event → List Event
  | [] => []
  | x :: xs => orderedInsertE x (sortEvents xs)

/-- `self.slist`: the four events of the record in time order. -/
def slist (v : NightRecord) : List Event :=
  sortEvents [v.sunset, v.sunrise, v.moonset, v.moonrise]

/-- The scan in `find_events` that looks for the sunset event: it skips
events until the first one labelled sunset and returns that suffix. -/
def dropToSunset : List Event → List Event
  | [] => []
  | e :: es => if e.label = Label.sunset then e :: es else dropToSunset es

/-- `vephem.find_events`: walk the time-ordered list, find sunset
(`end_twilight`), an optional moon event right after it, and the following
event (`begin_twilight`).  An empty suffix where the code indexes the list
is the `index out of bounds` RuntimeException. -/
def find_events (l : List Event) : Except VError (Event × Option Event × Event) :=
  match dropToSunset l with
  | [] => Except.error VError.indexOutOfBounds
  | e0 :: rest =>
    match rest with
    | [] => Except.error VError.indexOutOfBounds
    | e1 :: rest2 =>
      if e1.label = Label.moonrise ∨ e1.label = Label.moonset then
        match rest2 with
        | [] => Except.error VError.indexOutOfBounds
        | e2 :: _ => Except.ok (e0, some e1, e2)
      else Except.ok (e0, none, e1)

/-- The moon event `find_events` assigns (`self.moon_event`), `none` when
the event following sunset is not a moon event or when `find_events`
fails. -/
def moonEv (v : NightRecord) : Option Event :=
  match find_events (slist v) with
  | Except.ok (_, me, _) => me
  | Except.error _ => none

/-- `start_night`, `end_night`, `night_duration` after `find_night`. -/
structure NightResult where
  start_night : Event
  end_night : Event
  night_duration : ℤ
deriving DecidableEq, Repr

/-- The case analysis of `vephem.find_night` before the duration is
computed: the value of `(start_night, end_night)` assigned by the
if/elif/else chain.  Reading `.label` of a `None` moon event is the
AttributeError. -/
def find_night_core (cfg : Config) (v : NightRecord) (moon_event : Option Event) :
    Except VError (Event × Event) :=
  if v.moonrise.dt < v.sunset.dt ∧ v.moonset.dt > v.sunrise.dt then
    Except.ok (v.sunset, v.sunrise)
  else if v.moonset.dt < v.sunset.dt ∧ v.moonrise.dt > v.sunrise.dt then
    Except.ok (v.sunset, v.sunrise)
  else if (v.moonset.dt < v.sunset.dt ∧ v.moonrise.dt < v.sunset.dt) ∨
      (v.moonset.dt > v.sunrise.dt ∧ v.moonrise.dt > v.sunrise.dt) then
    Except.ok (v.sunset, v.sunrise)
  else
    match moon_event with
    | none => Except.error VError.attributeError
    | some me =>
      if me.label = Label.moonrise then
        Except.ok (v.sunset,
          if max v.sunrise.moon_frac v.moonrise.moon_frac > cfg.max_rhv_phase then
            v.moonrise
          else v.sunrise)
      else
        Except.ok
          (if max v.sunset.moon_frac v.moonset.moon_frac ≤ cfg.max_rhv_phase then
            v.sunset
          else v.moonset, v.sunrise)

/-- `vephem.find_night`: the case analysis, then
`night_duration = end_night - start_night`, then the edge case: if the
duration is below `minimum_interval` the interval is re-widened to the full
sunset-to-sunrise span (the duration is not recomputed). -/
def find_night (cfg : Config) (v : NightRecord) (moon_event : Option Event) :
    Except VError NightResult :=
  match find_night_core cfg v moon_event with
  | Except.error e => Except.error e
  | Except.ok (s0, e0) =>
    if e0.dt - s0.dt < cfg.minimum_interval then
      Except.ok ⟨v.sunset, v.sunrise, e0.dt - s0.dt⟩
    else
      Except.ok ⟨s0, e0, e0.dt - s0.dt⟩

/-- `vephem.find_dark`: the dark interval (`start_dark`, `end_dark`), or
`none` when both are set to Python `None`, together with `dark_duration`
(zero when there is no dark interval). -/
def find_dark (v : NightRecord) (moon_event : Option Event) :
    Except VError (Option (Event × Event) × ℤ) :=
  let interval : Except VError (Option (Event × Event)) :=
    if v.moonrise.dt < v.sunset.dt ∧ v.moonset.dt > v.sunrise.dt then
      Except.ok none
    else if v.moonset.dt < v.sunset.dt ∧ v.moonrise.dt > v.sunrise.dt then
      Except.ok (some (v.sunset, v.sunrise))
    else if v.moonset.dt < v.sunset.dt ∧ v.moonrise.dt < v.sunset.dt then
      if v.sunrise.moon_alt < 0 then Except.ok (some (v.sunset, v.sunrise))
      else Except.ok none
    else if v.moonset.dt > v.sunrise.dt ∧ v.moonrise.dt > v.sunrise.dt then
      if v.sunrise.moon_alt < 0 then Except.ok (some (v.sunset, v.sunrise))
      else Except.ok none
    else
      match moon_event with
      | none => Except.error VError.attributeError
      | some me =>
        if me.label = Label.moonrise then Except.ok (some (v.sunset, v.moonrise))
        else Except.ok (some (v.moonset, v.sunrise))
  match interval with
  | Except.error e => Except.error e
  | Except.ok none => Except.ok (none, 0)
  | Except.ok (some (s, e)) => Except.ok (some (s, e), e.dt - s.dt)

/-- `vephem.find_moon`: the moon interval (`start_moon`, `end_moon`), the
`moon_or_rhv` flag and `moon_duration`.  In the two branches where both
moon events fall on the same side of the night and the moon is judged up
all night, the code assigns the undefined names `moon` / `rhv` when the
peak fraction is below one of the thresholds, a NameError. -/
def find_moon (cfg : Config) (v : NightRecord) (moon_event : Option Event) :
    Except VError (Option (Event × Event) × Option MoonMode × ℤ) :=
  let core : Except VError (Option (Event × Event) × Option MoonMode) :=
    if v.moonrise.dt < v.sunset.dt ∧ v.moonset.dt > v.sunrise.dt then
      Except.ok (some (v.sunset, v.sunrise), none)
    else if v.moonset.dt < v.sunset.dt ∧ v.moonrise.dt > v.sunrise.dt then
      Except.ok (none, none)
    else if v.moonset.dt < v.sunset.dt ∧ v.moonrise.dt < v.sunset.dt then
      if v.moonrise.dt > v.moonset.dt then
        if max v.sunset.moon_frac v.sunrise.moon_frac < cfg.max_moon_phase then
          Except.error VError.nameError
        else if max v.sunset.moon_frac v.sunrise.moon_frac < cfg.max_rhv_phase then
          Except.error VError.nameError
        else Except.ok (some (v.sunset, v.sunrise), none)
      else Except.ok (none, none)
    else if v.moonset.dt > v.sunrise.dt ∧ v.moonrise.dt > v.sunrise.dt then
      if v.moonset.dt < v.moonrise.dt then
        if max v.sunset.moon_frac v.sunrise.moon_frac < cfg.max_moon_phase then
          Except.error VError.nameError
        else if max v.sunset.moon_frac v.sunrise.moon_frac < cfg.max_rhv_phase then
          Except.error VError.nameError
        else Except.ok (some (v.sunset, v.sunrise), none)
      else Except.ok (none, none)
    else
      match moon_event with
      | none => Except.error VError.attributeError
      | some me =>
        if me.label = Label.moonrise then
          Except.ok (some (v.moonrise, v.sunrise),
            if max v.moonrise.moon_frac v.sunrise.moon_frac < cfg.max_moon_phase then
              some MoonMode.moonlight
            else if max v.moonrise.moon_frac v.sunrise.moon_frac < cfg.max_rhv_phase then
              some MoonMode.rhv
            else none)
        else
          Except.ok (some (v.sunset, v.moonset),
            if max v.sunset.moon_frac v.moonset.moon_frac < cfg.max_moon_phase then
              some MoonMode.moonlight
            else if max v.sunset.moon_frac v.moonset.moon_frac < cfg.max_rhv_phase then
              some MoonMode.rhv
            else none)
  match core with
  | Except.error e => Except.error e
  | Except.ok (none, m) => Except.ok (none, m, 0)
  | Except.ok (some (s, e), m) => Except.ok (some (s, e), m, e.dt - s.dt)

/-- The derived fields of a fully constructed `vephem` object. -/
structure ClassifiedNight where
  end_twilight : Event
  moon_event : Option Event
  begin_twilight : Event
  night : NightResult
  dark : Option (Event × Event)
  dark_duration : ℤ
  moon : Option (Event × Event)
  moon_or_rhv : Option MoonMode
  moon_duration : ℤ
deriving DecidableEq, Repr

/-- The classification run by `vephem.__init__` after parsing: sort the
events, `find_events`, `find_night`, `find_dark`, `find_moon`, with any
raised exception aborting the construction. -/
def classify (cfg : Config) (v : NightRecord) : Except VError ClassifiedNight :=
  match find_events (slist v) with
  | Except.error e => Except.error e
  | Except.ok (etw, mev, btw) =>
    match find_night cfg v mev with
    | Except.error e => Except.error e
    | Except.ok nr =>
      match find_dark v mev with
      | Except.error e => Except.error e
      | Except.ok (dk, dkDur) =>
        match find_moon cfg v mev with
        | Except.error e => Except.error e
        | Except.ok (mo, mode, moDur) =>
          Except.ok ⟨etw, mev, btw, nr, dk, dkDur, mo, mode, moDur⟩

/-- Total wrapper used to name the classification result of a record on
which `classify` is known to succeed. -/
def classifyD (cfg : Config) (v : NightRecord) : ClassifiedNight :=
  match classify cfg v with
  | Except.ok c => c
  | Except.error _ =>
    ⟨v.sunset, none, v.sunrise, ⟨v.sunset, v.sunrise, 0⟩, none, 0, none, none, 0⟩

/-- `vephem.parse_string`: split into 12 comma-separated fields, parse
timestamp / fraction / altitude for sunset, sunrise, moonset, moonrise in
that order, and build the labelled events.  The external library parsers
(`datetime.fromisoformat`, `float`) are taken as parameters; any parse
failure or a wrong field count aborts with no record. -/
def parse_string {σ : Type} (parse_ts : σ → Option ℤ) (parse_float : σ → Option ℚ)
    (tokens : List σ) : Option NightRecord :=
  if tokens.length ≠ 12 then none
  else
    match tokens with
    | [t0, t1, t2, t3, t4, t5, t6, t7, t8, t9, t10, t11] => do
      let sunset_dt ← parse_ts t0
      let sunset_frac ← parse_float t1
      let sunset_alt ← parse_float t2
      let sunrise_dt ← parse_ts t3
      let sunrise_frac ← parse_float t4
      let sunrise_alt ← parse_float t5
      let moonset_dt ← parse_ts t6
      let moonset_frac ← parse_float t7
      let moonset_alt ← parse_float t8
      let moonrise_dt ← parse_ts t9
      let moonrise_frac ← parse_float t10
      let moonrise_alt ← parse_float t11
      pure ⟨⟨sunset_dt, sunset_frac, sunset_alt, Label.sunset⟩,
            ⟨sunrise_dt, sunrise_frac, sunrise_alt, Label.sunrise⟩,
            ⟨moonset_dt, moonset_frac, moonset_alt, Label.moonset⟩,
            ⟨moonrise_dt, moonrise_frac, moonrise_alt, Label.moonrise⟩⟩
    | _ => none

/-- "Moon up all night": moonrise before sunset and moonset after sunrise
(first condition of the decision chains). -/
abbrev geomUpAll (v : NightRecord) : Prop :=
  v.moonrise.dt < v.sunset.dt ∧ v.moonset.dt > v.sunrise.dt

/-- "Moon down all night": moonset before sunset and moonrise after
sunrise. -/
abbrev geomDownAll (v : NightRecord) : Prop :=
  v.moonset.dt < v.sunset.dt ∧ v.moonrise.dt > v.sunrise.dt

/-- Both moon events strictly before sunset. -/
abbrev geomBothBefore (v : NightRecord) : Prop :=
  v.moonset.dt < v.sunset.dt ∧ v.moonrise.dt < v.sunset.dt

/-- Both moon events strictly after sunrise. -/
abbrev geomBothAfter (v : NightRecord) : Prop :=
  v.moonset.dt > v.sunrise.dt ∧ v.moonrise.dt > v.sunrise.dt

/-- The condition under which `find_moon` reaches an assignment of the
undefined names `moon` / `rhv` and aborts with a NameError: both moon
events on the same side of the night, the sub-test judging the moon up all
night, and the peak endpoint fraction below one of the thresholds. -/
abbrev nameErrCond (cfg : Config) (v : NightRecord) : Prop :=
  (geomBothBefore v ∨ geomBothAfter v) ∧ v.moonset.dt < v.moonrise.dt ∧
    (max v.sunset.moon_frac v.sunrise.moon_frac < cfg.max_moon_phase ∨
      max v.sunset.moon_frac v.sunrise.moon_frac < cfg.max_rhv_phase)

/-- How many of the six geometric cases of the decision table hold for a
record: the four timestamp-comparison cases plus "the event following
sunset is the moonrise" and "... is the moonset". -/
def caseCount (v : NightRecord) : ℕ :=
  (if geomUpAll v then 1 else 0) + (if geomDownAll v then 1 else 0) +
    (if geomBothBefore v then 1 else 0) + (if geomBothAfter v then 1 else 0) +
    (if moonEv v = some v.moonrise then 1 else 0) +
    (if moonEv v = some v.moonset then 1 else 0)

/-- The run numbering state threaded through the date loop. -/
structure RunState where
  dark_run_number : ℕ
  dark_run_night_number : ℕ
  bright_run_number : ℕ
  bright_run_night_number : ℕ
  darkRun : Bool
  brightRun : Bool
deriving DecidableEq, Repr

/-- The counters and flags before the date loop starts. -/
def initialRunState : RunState := ⟨0, 0, 0, 0, false, false⟩

/-- The dark-run block of the date loop: when the night's dark duration
reaches the minimum interval the night is emitted with the current run and
night-in-run numbers; otherwise an active dark run is closed, reserving the
next run number. -/
def stepDark (minI dur : ℤ) (st : RunState) : RunState × Option (ℕ × ℕ) :=
  if dur ≥ minI then
    let st1 :=
      if st.dark_run_number = 0 then
        { st with darkRun := true, dark_run_number := 1, dark_run_night_number := 1 }
      else
        { st with darkRun := true,
                  dark_run_night_number := st.dark_run_night_number + 1 }
    (st1, some (st1.dark_run_number, st1.dark_run_night_number))
  else
    if st.darkRun then
      ({ st with dark_run_number := st.dark_run_number + 1,
                 dark_run_night_number := 0, darkRun := false }, none)
    else (st, none)

/-- The bright-run block of the date loop, the complement test with its own
counters. -/
def stepBright (minI dur : ℤ) (st : RunState) : RunState × Option (ℕ × ℕ) :=
  if dur < minI then
    let st1 :=
      if st.bright_run_number = 0 then
        { st with brightRun := true, bright_run_number := 1,
                  bright_run_night_number := 1 }
      else
        { st with brightRun := true,
                  bright_run_night_number := st.bright_run_night_number + 1 }
    (st1, some (st1.bright_run_number, st1.bright_run_night_number))
  else
    if st.brightRun then
      ({ st with bright_run_number := st.bright_run_number + 1,
                 bright_run_night_number := 0, brightRun := false }, none)
    else (st, none)

/-- One iteration of the date loop (default mode, both schedules printed):
the dark-run block then the bright-run block, each possibly emitting a
(run number, night-in-run number) label. -/
def stepNight (minI dur : ℤ) (st : RunState) :
    RunState × Option (ℕ × ℕ) × Option (ℕ × ℕ) :=
  let p1 := stepDark minI dur st
  let p2 := stepBright minI dur p1.1
  (p2.1, p1.2, p2.2)

/-- The date loop over a sequence of per-night dark durations, collecting
the emitted dark-run and bright-run labels. -/
def runNights (minI : ℤ) : List ℤ → RunState → List (Option (ℕ × ℕ) × Option (ℕ × ℕ))
  | [], _ => []
  | d :: ds, st =>
    let p := stepNight minI d st
    (p.2.1, p.2.2) :: runNights minI ds p.1

/-- Moonrise inside the night, bright moon: sunset 0, sunrise 660,
moonrise 240, moonset 900, all fractions 0.9. -/
def recMoonriseInside : NightRecord :=
  ⟨⟨0, mkRat 9 10, 0, Label.sunset⟩, ⟨660, mkRat 9 10, 0, Label.sunrise⟩,
   ⟨900, mkRat 9 10, 0, Label.moonset⟩, ⟨240, mkRat 9 10, 0, Label.moonrise⟩⟩

/-- Moon up all night with a dim moon: moonrise -60 before sunset 0,
moonset 700 after sunrise 600, all fractions 0.1. -/
def recUpAllNight : NightRecord :=
  ⟨⟨0, mkRat 1 10, 0, Label.sunset⟩, ⟨600, mkRat 1 10, 0, Label.sunrise⟩,
   ⟨700, mkRat 1 10, 0, Label.moonset⟩, ⟨-60, mkRat 1 10, 0, Label.moonrise⟩⟩

/-- Valid geometry (sunset 0 before sunrise 600) whose moonrise falls
exactly on sunrise, with moonset before sunset. -/
def recTieMoonriseSunrise : NightRecord :=
  ⟨⟨0, 0, 0, Label.sunset⟩, ⟨600, 0, 0, Label.sunrise⟩,
   ⟨-100, 0, 0, Label.moonset⟩, ⟨600, 0, 0, Label.moonrise⟩⟩

/-- Inverted geometry: sunrise 0 before sunset 10, both moon events after
sunset. -/
def recSunsetAfterSunrise : NightRecord :=
  ⟨⟨10, 0, 0, Label.sunset⟩, ⟨0, 0, -1, Label.sunrise⟩,
   ⟨30, 0, 0, Label.moonset⟩, ⟨20, 0, 0, Label.moonrise⟩⟩

/-- Sunset strictly after the other three events. -/
def recSunsetLast : NightRecord :=
  ⟨⟨100, 0, 0, Label.sunset⟩, ⟨0, 0, 0, Label.sunrise⟩,
   ⟨10, 0, 0, Label.moonset⟩, ⟨20, 0, 0, Label.moonrise⟩⟩

/-- Bright moonrise shortly after sunset: the truncated night is only 60
minutes, so the re-widening edge case fires. -/
def recShortNight : NightRecord :=
  ⟨⟨0, mkRat 9 10, 0, Label.sunset⟩, ⟨600, mkRat 9 10, 0, Label.sunrise⟩,
   ⟨900, mkRat 9 10, 0, Label.moonset⟩, ⟨60, mkRat 9 10, 0, Label.moonrise⟩⟩

set_option maxHeartbeats 1000000 in
theorem find_events_ok (v : NightRecord) (hl : wellLabelled v)
    (hsr : v.sunset.dt < v.sunrise.dt) :
    ∃ b, find_events (slist v) = Except.ok (v.sunset, moonEv v, b) := by
  obtain ⟨es, er, ems, emr⟩ := v
  obtain ⟨d1, f1, a1, l1⟩ := es
  obtain ⟨d2, f2, a2, l2⟩ := er
  obtain ⟨d3, f3, a3, l3⟩ := ems
  obtain ⟨d4, f4, a4, l4⟩ := emr
  obtain ⟨h1, h2, h3, h4⟩ := hl
  simp only at h1 h2 h3 h4 hsr
  subst h1 h2 h3 h4
  simp only [moonEv, slist, sortEvents, orderedInsertE]
  split_ifs <;>
    (try simp only [orderedInsertE]) <;> (try split_ifs) <;>
    (try simp only [orderedInsertE]) <;> (try split_ifs) <;>
    simp_all [find_events, dropToSunset] <;> omega

set_option maxHeartbeats 1000000 in
theorem moonEv_cases (v : NightRecord) (hl : wellLabelled v)
    (hsr : v.sunset.dt < v.sunrise.dt) :
    moonEv v = none ∨
      (moonEv v = some v.moonrise ∧ v.sunset.dt ≤ v.moonrise.dt ∧
        v.moonrise.dt ≤ v.sunrise.dt) ∨
      (moonEv v = some v.moonset ∧ v.sunset.dt ≤ v.moonset.dt ∧
        v.moonset.dt ≤ v.sunrise.dt) := by
  obtain ⟨es, er, ems, emr⟩ := v
  obtain ⟨d1, f1, a1, l1⟩ := es
  obtain ⟨d2, f2, a2, l2⟩ := er
  obtain ⟨d3, f3, a3, l3⟩ := ems
  obtain ⟨d4, f4, a4, l4⟩ := emr
  obtain ⟨h1, h2, h3, h4⟩ := hl
  simp only at h1 h2 h3 h4 hsr
  subst h1 h2 h3 h4
  simp only [moonEv, slist, sortEvents, orderedInsertE]
  split_ifs <;>
    (try simp only [orderedInsertE]) <;> (try split_ifs) <;>
    (try simp only [orderedInsertE]) <;> (try split_ifs) <;>
    simp_all [find_events, dropToSunset] <;> omega

set_option maxHeartbeats 1000000 in
theorem moonEv_none_cases (v : NightRecord) (hl : wellLabelled v)
    (hsr : v.sunset.dt < v.sunrise.dt) (h : moonEv v = none) :
    geomUpAll v ∨ geomDownAll v ∨ geomBothBefore v ∨ geomBothAfter v ∨
      v.moonset.dt = v.sunrise.dt ∨ v.moonrise.dt = v.sunrise.dt := by
  obtain ⟨es, er, ems, emr⟩ := v
  obtain ⟨d1, f1, a1, l1⟩ := es
  obtain ⟨d2, f2, a2, l2⟩ := er
  obtain ⟨d3, f3, a3, l3⟩ := ems
  obtain ⟨d4, f4, a4, l4⟩ := emr
  obtain ⟨h1, h2, h3, h4⟩ := hl
  simp only at h1 h2 h3 h4 hsr
  subst h1 h2 h3 h4
  simp only [moonEv, slist, sortEvents, orderedInsertE] at h
  simp only [geomUpAll, geomDownAll, geomBothBefore, geomBothAfter]
  split_ifs at h <;>
    (try simp only [orderedInsertE] at h) <;> (try split_ifs at h) <;>
    (try simp only [orderedInsertE] at h) <;> (try split_ifs at h) <;>
    simp_all [find_events, dropToSunset] <;> omega

set_option maxHeartbeats 1000000 in
theorem find_events_sunset_last (v : NightRecord) (hl : wellLabelled v)
    (h2 : v.sunrise.dt < v.sunset.dt) (h3 : v.moonset.dt < v.sunset.dt)
    (h4 : v.moonrise.dt < v.sunset.dt) :
    find_events (slist v) = Except.error VError.indexOutOfBounds := by
  obtain ⟨es, er, ems, emr⟩ := v
  obtain ⟨d1, f1, a1, l1⟩ := es
  obtain ⟨d2, f2, a2, l2⟩ := er
  obtain ⟨d3, f3, a3, l3⟩ := ems
  obtain ⟨d4, f4, a4, l4⟩ := emr
  obtain ⟨hw1, hw2, hw3, hw4⟩ := hl
  simp only at hw1 hw2 hw3 hw4 h2 h3 h4
  subst hw1 hw2 hw3 hw4
  simp only [slist, sortEvents, orderedInsertE]
  split_ifs <;>
    (try simp only [orderedInsertE]) <;> (try split_ifs) <;>
    (try simp only [orderedInsertE]) <;> (try split_ifs) <;>
    simp_all [find_events, dropToSunset] <;> omega

theorem moonrise_ne_moonset (v : NightRecord) (hl : wellLabelled v) :
    v.moonrise ≠ v.moonset := by
  intro h
  have hlab := congrArg Event.label h
  rw [hl.2.2.2, hl.2.2.1] at hlab
  exact absurd hlab (by decide)

theorem moonEv_moonrise_bounds (v : NightRecord) (hl : wellLabelled v)
    (hsr : v.sunset.dt < v.sunrise.dt) (h : moonEv v = some v.moonrise) :
    v.sunset.dt ≤ v.moonrise.dt ∧ v.moonrise.dt ≤ v.sunrise.dt := by
  rcases moonEv_cases v hl hsr with h0 | ⟨_, hb⟩ | ⟨h1, _⟩
  · rw [h] at h0; exact absurd h0 (by simp)
  · exact hb
  · rw [h] at h1
    have := Option.some_injective _ h1
    exact absurd this (moonrise_ne_moonset v hl)

theorem moonEv_moonset_bounds (v : NightRecord) (hl : wellLabelled v)
    (hsr : v.sunset.dt < v.sunrise.dt) (h : moonEv v = some v.moonset) :
    v.sunset.dt ≤ v.moonset.dt ∧ v.moonset.dt ≤ v.sunrise.dt := by
  rcases moonEv_cases v hl hsr with h0 | ⟨h1, _⟩ | ⟨_, hb⟩
  · rw [h] at h0; exact absurd h0 (by simp)
  · rw [h] at h1
    have := Option.some_injective _ h1
    exact absurd this.symm (moonrise_ne_moonset v hl)
  · exact hb

theorem classify_ok_inv (cfg : Config) (v : NightRecord) (c : ClassifiedNight)
    (hl : wellLabelled v) (hsr : v.sunset.dt < v.sunrise.dt)
    (hc : classify cfg v = Except.ok c) :
    c.moon_event = moonEv v ∧
      find_night cfg v (moonEv v) = Except.ok c.night ∧
      find_dark v (moonEv v) = Except.ok (c.dark, c.dark_duration) ∧
      find_moon cfg v (moonEv v) = Except.ok (c.moon, c.moon_or_rhv, c.moon_duration) := by
  obtain ⟨b, hfe⟩ := find_events_ok v hl hsr
  unfold classify at hc
  rw [hfe] at hc
  dsimp only at hc
  cases hn : find_night cfg v (moonEv v) with
  | error e => rw [hn] at hc; simp at hc
  | ok nr =>
    rw [hn] at hc
    cases hd : find_dark v (moonEv v) with
    | error e => rw [hd] at hc; simp at hc
    | ok dk =>
      obtain ⟨dkI, dkD⟩ := dk
      rw [hd] at hc
      cases hm : find_moon cfg v (moonEv v) with
      | error e => rw [hm] at hc; simp at hc
      | ok mo =>
        obtain ⟨moI, moM, moD⟩ := mo
        rw [hm] at hc
        simp only [Except.ok.injEq] at hc
        subst hc
        exact ⟨rfl, rfl, rfl, rfl⟩

theorem find_night_full (cfg : Config) (v : NightRecord) (mev : Option Event)
    (hsr : v.sunset.dt < v.sunrise.dt)
    (h : geomUpAll v ∨ geomDownAll v ∨ geomBothBefore v ∨ geomBothAfter v) :
    find_night cfg v mev =
      Except.ok ⟨v.sunset, v.sunrise, v.sunrise.dt - v.sunset.dt⟩ := by
  have hcore : find_night_core cfg v mev = Except.ok (v.sunset, v.sunrise) := by
    unfold find_night_core
    rcases h with ⟨hA1, hA2⟩ | ⟨hB1, hB2⟩ | ⟨hC1, hC2⟩ | ⟨hD1, hD2⟩
    · rw [if_pos ⟨hA1, hA2⟩]
    · rw [if_neg (by omega), if_pos ⟨hB1, hB2⟩]
    · rw [if_neg (by omega), if_neg (by omega), if_pos (Or.inl ⟨hC1, hC2⟩)]
    · rw [if_neg (by omega), if_neg (by omega), if_pos (Or.inr ⟨hD1, hD2⟩)]
  unfold find_night
  rw [hcore]
  dsimp only
  split_ifs <;> rfl

theorem find_night_none (cfg : Config) (v : NightRecord)
    (hA : ¬ geomUpAll v) (hB : ¬ geomDownAll v)
    (hC : ¬ (geomBothBefore v ∨ geomBothAfter v)) :
    find_night cfg v none = Except.error VError.attributeError := by
  unfold find_night find_night_core
  rw [if_neg hA, if_neg hB, if_neg hC]

theorem find_night_moonrise (cfg : Config) (v : NightRecord)
    (hl : wellLabelled v) (hsr : v.sunset.dt < v.sunrise.dt)
    (hme : moonEv v = some v.moonrise) :
    find_night cfg v (moonEv v) =
      if max v.sunrise.moon_frac v.moonrise.moon_frac > cfg.max_rhv_phase then
        (if v.moonrise.dt - v.sunset.dt < cfg.minimum_interval then
          Except.ok ⟨v.sunset, v.sunrise, v.moonrise.dt - v.sunset.dt⟩
        else Except.ok ⟨v.sunset, v.moonrise, v.moonrise.dt - v.sunset.dt⟩)
      else Except.ok ⟨v.sunset, v.sunrise, v.sunrise.dt - v.sunset.dt⟩ := by
  obtain ⟨hb1, hb2⟩ := moonEv_moonrise_bounds v hl hsr hme
  rw [hme]
  unfold find_night find_night_core
  rw [if_neg (by omega), if_neg (by omega), if_neg (by omega)]
  dsimp only
  rw [if_pos hl.2.2.2]
  dsimp only
  split_ifs <;> rfl

theorem find_night_moonset (cfg : Config) (v : NightRecord)
    (hl : wellLabelled v) (hsr : v.sunset.dt < v.sunrise.dt)
    (hme : moonEv v = some v.moonset) :
    find_night cfg v (moonEv v) =
      if max v.sunset.moon_frac v.moonset.moon_frac ≤ cfg.max_rhv_phase then
        Except.ok ⟨v.sunset, v.sunrise, v.sunrise.dt - v.sunset.dt⟩
      else
        (if v.sunrise.dt - v.moonset.dt < cfg.minimum_interval then
          Except.ok ⟨v.sunset, v.sunrise, v.sunrise.dt - v.moonset.dt⟩
        else Except.ok ⟨v.moonset, v.sunrise, v.sunrise.dt - v.moonset.dt⟩) := by
  obtain ⟨hb1, hb2⟩ := moonEv_moonset_bounds v hl hsr hme
  rw [hme]
  unfold find_night find_night_core
  rw [if_neg (by omega), if_neg (by omega), if_neg (by omega)]
  dsimp only
  rw [if_neg (by rw [hl.2.2.1]; decide)]
  dsimp only
  split_ifs <;> rfl

theorem find_dark_upAll (v : NightRecord) (mev : Option Event)
    (h : geomUpAll v) : find_dark v mev = Except.ok (none, 0) := by
  unfold find_dark
  rw [if_pos h]

theorem find_dark_downAll (v : NightRecord) (mev : Option Event)
    (hsr : v.sunset.dt < v.sunrise.dt) (h : geomDownAll v) :
    find_dark v mev =
      Except.ok (some (v.sunset, v.sunrise), v.sunrise.dt - v.sunset.dt) := by
  obtain ⟨h1, h2⟩ := h
  unfold find_dark
  rw [if_neg (by omega), if_pos ⟨h1, h2⟩]

theorem find_dark_bothBefore (v : NightRecord) (mev : Option Event)
    (hsr : v.sunset.dt < v.sunrise.dt) (h : geomBothBefore v) :
    find_dark v mev =
      if v.sunrise.moon_alt < 0 then
        Except.ok (some (v.sunset, v.sunrise), v.sunrise.dt - v.sunset.dt)
      else Except.ok (none, 0) := by
  obtain ⟨h1, h2⟩ := h
  unfold find_dark
  rw [if_neg (by omega), if_neg (by omega), if_pos ⟨h1, h2⟩]
  dsimp only
  split_ifs <;> rfl

theorem find_dark_bothAfter (v : NightRecord) (mev : Option Event)
    (hsr : v.sunset.dt < v.sunrise.dt) (h : geomBothAfter v) :
    find_dark v mev =
      if v.sunrise.moon_alt < 0 then
        Except.ok (some (v.sunset, v.sunrise), v.sunrise.dt - v.sunset.dt)
      else Except.ok (none, 0) := by
  obtain ⟨h1, h2⟩ := h
  unfold find_dark
  rw [if_neg (by omega), if_neg (by omega), if_neg (by omega), if_pos ⟨h1, h2⟩]
  dsimp only
  split_ifs <;> rfl

theorem find_dark_moonrise (v : NightRecord) (hl : wellLabelled v)
    (hsr : v.sunset.dt < v.sunrise.dt) (hme : moonEv v = some v.moonrise) :
    find_dark v (moonEv v) =
      Except.ok (some (v.sunset, v.moonrise), v.moonrise.dt - v.sunset.dt) := by
  obtain ⟨hb1, hb2⟩ := moonEv_moonrise_bounds v hl hsr hme
  rw [hme]
  unfold find_dark
  rw [if_neg (by omega), if_neg (by omega), if_neg (by omega), if_neg (by omega)]
  dsimp only
  rw [if_pos hl.2.2.2]

theorem find_dark_moonset (v : NightRecord) (hl : wellLabelled v)
    (hsr : v.sunset.dt < v.sunrise.dt) (hme : moonEv v = some v.moonset) :
    find_dark v (moonEv v) =
      Except.ok (some (v.moonset, v.sunrise), v.sunrise.dt - v.moonset.dt) := by
  obtain ⟨hb1, hb2⟩ := moonEv_moonset_bounds v hl hsr hme
  rw [hme]
  unfold find_dark
  rw [if_neg (by omega), if_neg (by omega), if_neg (by omega), if_neg (by omega)]
  dsimp only
  rw [if_neg (by rw [hl.2.2.1]; decide)]

theorem find_dark_none (v : NightRecord)
    (hA : ¬ geomUpAll v) (hB : ¬ geomDownAll v)
    (hC1 : ¬ geomBothBefore v) (hC2 : ¬ geomBothAfter v) :
    find_dark v none = Except.error VError.attributeError := by
  unfold find_dark
  rw [if_neg hA, if_neg hB, if_neg hC1, if_neg hC2]

theorem find_moon_upAll (cfg : Config) (v : NightRecord) (mev : Option Event)
    (h : geomUpAll v) :
    find_moon cfg v mev =
      Except.ok (some (v.sunset, v.sunrise), none, v.sunrise.dt - v.sunset.dt) := by
  unfold find_moon
  rw [if_pos h]

theorem find_moon_downAll (cfg : Config) (v : NightRecord) (mev : Option Event)
    (hsr : v.sunset.dt < v.sunrise.dt) (h : geomDownAll v) :
    find_moon cfg v mev = Except.ok (none, none, 0) := by
  obtain ⟨h1, h2⟩ := h
  unfold find_moon
  rw [if_neg (by omega), if_pos ⟨h1, h2⟩]

theorem find_moon_bothBefore (cfg : Config) (v : NightRecord) (mev : Option Event)
    (hsr : v.sunset.dt < v.sunrise.dt) (h : geomBothBefore v) :
    find_moon cfg v mev =
      if v.moonrise.dt > v.moonset.dt then
        (if max v.sunset.moon_frac v.sunrise.moon_frac < cfg.max_moon_phase then
          Except.error VError.nameError
        else if max v.sunset.moon_frac v.sunrise.moon_frac < cfg.max_rhv_phase then
          Except.error VError.nameError
        else
          Except.ok (some (v.sunset, v.sunrise), none, v.sunrise.dt - v.sunset.dt))
      else Except.ok (none, none, 0) := by
  obtain ⟨h1, h2⟩ := h
  unfold find_moon
  rw [if_neg (by omega), if_neg (by omega), if_pos ⟨h1, h2⟩]
  dsimp only
  split_ifs <;> rfl

theorem find_moon_bothAfter (cfg : Config) (v : NightRecord) (mev : Option Event)
    (hsr : v.sunset.dt < v.sunrise.dt) (h : geomBothAfter v) :
    find_moon cfg v mev =
      if v.moonset.dt < v.moonrise.dt then
        (if max v.sunset.moon_frac v.sunrise.moon_frac < cfg.max_moon_phase then
          Except.error VError.nameError
        else if max v.sunset.moon_frac v.sunrise.moon_frac < cfg.max_rhv_phase then
          Except.error VError.nameError
        else
          Except.ok (some (v.sunset, v.sunrise), none, v.sunrise.dt - v.sunset.dt))
      else Except.ok (none, none, 0) := by
  obtain ⟨h1, h2⟩ := h
  unfold find_moon
  rw [if_neg (by omega), if_neg (by omega), if_neg (by omega), if_pos ⟨h1, h2⟩]
  dsimp only
  split_ifs <;> rfl

theorem find_moon_moonrise (cfg : Config) (v : NightRecord)
    (hl : wellLabelled v) (hsr : v.sunset.dt < v.sunrise.dt)
    (hme : moonEv v = some v.moonrise) :
    find_moon cfg v (moonEv v) =
      Except.ok (some (v.moonrise, v.sunrise),
        (if max v.moonrise.moon_frac v.sunrise.moon_frac < cfg.max_moon_phase then
          some MoonMode.moonlight
        else if max v.moonrise.moon_frac v.sunrise.moon_frac < cfg.max_rhv_phase then
          some MoonMode.rhv
        else none), v.sunrise.dt - v.moonrise.dt) := by
  obtain ⟨hb1, hb2⟩ := moonEv_moonrise_bounds v hl hsr hme
  rw [hme]
  unfold find_moon
  rw [if_neg (by omega), if_neg (by omega), if_neg (by omega), if_neg (by omega)]
  dsimp only
  rw [if_pos hl.2.2.2]

theorem find_moon_moonset (cfg : Config) (v : NightRecord)
    (hl : wellLabelled v) (hsr : v.sunset.dt < v.sunrise.dt)
    (hme : moonEv v = some v.moonset) :
    find_moon cfg v (moonEv v) =
      Except.ok (some (v.sunset, v.moonset),
        (if max v.sunset.moon_frac v.moonset.moon_frac < cfg.max_moon_phase then
          some MoonMode.moonlight
        else if max v.sunset.moon_frac v.moonset.moon_frac < cfg.max_rhv_phase then
          some MoonMode.rhv
        else none), v.moonset.dt - v.sunset.dt) := by
  obtain ⟨hb1, hb2⟩ := moonEv_moonset_bounds v hl hsr hme
  rw [hme]
  unfold find_moon
  rw [if_neg (by omega), if_neg (by omega), if_neg (by omega), if_neg (by omega)]
  dsimp only
  rw [if_neg (by rw [hl.2.2.1]; decide)]

/-- C1: for a record with sunset before sunrise, when the event following
sunset is the moonrise and the resulting night duration reaches the
minimum interval, the night starts at sunset and ends at the moonrise when
the peak of the sunrise/moonrise fractions exceeds the rhv threshold, else
at sunrise; when that event is the moonset, the night ends at sunrise and
starts at sunset when the peak of the sunset/moonset fractions is at most
the rhv threshold, else at the moonset; in the four remaining geometric
cases the night is the full sunset-to-sunrise span. -/
theorem c1_night_interval (cfg : Config) (v : NightRecord) (hl : wellLabelled v)
    (hsr : v.sunset.dt < v.sunrise.dt) :
    (∀ nr : NightResult, moonEv v = some v.moonrise →
      find_night cfg v (moonEv v) = Except.ok nr →
      cfg.minimum_interval ≤ nr.night_duration →
      nr.start_night = v.sunset ∧
        nr.end_night =
          (if max v.sunrise.moon_frac v.moonrise.moon_frac > cfg.max_rhv_phase then
            v.moonrise else v.sunrise)) ∧
    (∀ nr : NightResult, moonEv v = some v.moonset →
      find_night cfg v (moonEv v) = Except.ok nr →
      cfg.minimum_interval ≤ nr.night_duration →
      nr.end_night = v.sunrise ∧
        nr.start_night =
          (if max v.sunset.moon_frac v.moonset.moon_frac ≤ cfg.max_rhv_phase then
            v.sunset else v.moonset)) ∧
    (∀ nr : NightResult,
      (geomUpAll v ∨ geomDownAll v ∨ geomBothBefore v ∨ geomBothAfter v) →
      find_night cfg v (moonEv v) = Except.ok nr →
      nr.start_night = v.sunset ∧ nr.end_night = v.sunrise) := by
  refine ⟨?_, ?_, ?_⟩
  · intro nr hme hn hdur
    rw [find_night_moonrise cfg v hl hsr hme] at hn
    split_ifs at hn with hfrac hdmin
    · injection hn with h
      rw [← h] at hdur
      dsimp only at hdur
      exact absurd hdur (by omega)
    · injection hn with h
      rw [← h]
      exact ⟨rfl, by rw [if_pos hfrac]⟩
    · injection hn with h
      rw [← h]
      exact ⟨rfl, by rw [if_neg hfrac]⟩
  · intro nr hme hn hdur
    rw [find_night_moonset cfg v hl hsr hme] at hn
    split_ifs at hn with hfrac hdmin
    · injection hn with h
      rw [← h]
      exact ⟨rfl, by rw [if_pos hfrac]⟩
    · injection hn with h
      rw [← h] at hdur
      dsimp only at hdur
      exact absurd hdur (by omega)
    · injection hn with h
      rw [← h]
      exact ⟨rfl, by rw [if_neg hfrac]⟩
  · intro nr hgeom hn
    rw [find_night_full cfg v (moonEv v) hsr hgeom] at hn
    injection hn with h
    rw [← h]
    exact ⟨rfl, rfl⟩

theorem c1_witness :
    (⟨⟨0, mkRat 9 10, 0, Label.sunset⟩, ⟨240, mkRat 9 10, 0, Label.moonrise⟩, 240⟩ :
        NightResult).start_night = recMoonriseInside.sunset ∧
      (⟨⟨0, mkRat 9 10, 0, Label.sunset⟩, ⟨240, mkRat 9 10, 0, Label.moonrise⟩, 240⟩ :
        NightResult).end_night =
        (if max recMoonriseInside.sunrise.moon_frac
            recMoonriseInside.moonrise.moon_frac > defaultCfg.max_rhv_phase then
          recMoonriseInside.moonrise else recMoonriseInside.sunrise) :=
  (c1_night_interval defaultCfg recMoonriseInside (by decide) (by decide)).1
    ⟨⟨0, mkRat 9 10, 0, Label.sunset⟩, ⟨240, mkRat 9 10, 0, Label.moonrise⟩, 240⟩
    (by decide) (by decide) (by decide)

/-- C4: the dark interval over the six cases: no dark interval when the
moon is up all night; the full night when it is down all night; when both
moon events are on one side of the night, the full night exactly when the
moon altitude at sunrise is negative and no dark interval otherwise; from
sunset to moonrise when the event after sunset is the moonrise; from
moonset to sunrise when it is the moonset. -/
theorem c4_dark_interval (v : NightRecord) (hl : wellLabelled v)
    (hsr : v.sunset.dt < v.sunrise.dt) :
    (geomUpAll v → find_dark v (moonEv v) = Except.ok (none, 0)) ∧
    (geomDownAll v → find_dark v (moonEv v) =
      Except.ok (some (v.sunset, v.sunrise), v.sunrise.dt - v.sunset.dt)) ∧
    ((geomBothBefore v ∨ geomBothAfter v) → find_dark v (moonEv v) =
      (if v.sunrise.moon_alt < 0 then
        Except.ok (some (v.sunset, v.sunrise), v.sunrise.dt - v.sunset.dt)
      else Except.ok (none, 0))) ∧
    (moonEv v = some v.moonrise → find_dark v (moonEv v) =
      Except.ok (some (v.sunset, v.moonrise), v.moonrise.dt - v.sunset.dt)) ∧
    (moonEv v = some v.moonset → find_dark v (moonEv v) =
      Except.ok (some (v.moonset, v.sunrise), v.sunrise.dt - v.moonset.dt)) :=
  ⟨fun h => find_dark_upAll v _ h,
   fun h => find_dark_downAll v _ hsr h,
   fun h => h.elim (find_dark_bothBefore v _ hsr) (find_dark_bothAfter v _ hsr),
   find_dark_moonrise v hl hsr,
   find_dark_moonset v hl hsr⟩

theorem c4_witness :
    find_dark recUpAllNight (moonEv recUpAllNight) = Except.ok (none, 0) :=
  (c4_dark_interval recUpAllNight (by decide) (by decide)).1 (by decide)

/-- C9: whenever classification succeeds and a dark interval is present,
it is contained in the night interval, in all six geometric cases and in
particular when the night interval was re-widened to the full
sunset-to-sunrise span because its duration fell below the minimum
interval. -/
theorem c9_dark_within_night (cfg : Config) (v : NightRecord) (c : ClassifiedNight)
    (a b : Event) (hl : wellLabelled v) (hsr : v.sunset.dt < v.sunrise.dt)
    (hc : classify cfg v = Except.ok c) (hd : c.dark = some (a, b)) :
    c.night.start_night.dt ≤ a.dt ∧ b.dt ≤ c.night.end_night.dt := by
  obtain ⟨hme, hn, hdk, hm⟩ := classify_ok_inv cfg v c hl hsr hc
  by_cases hA : geomUpAll v
  · rw [find_dark_upAll v _ hA, hd] at hdk
    simp at hdk
  · by_cases hB : geomDownAll v
    · rw [find_dark_downAll v _ hsr hB, hd] at hdk
      rw [find_night_full cfg v (moonEv v) hsr (Or.inr (Or.inl hB))] at hn
      injection hn with h1
      injection hdk with h2
      simp only [Prod.mk.injEq, Option.some.injEq] at h2
      obtain ⟨⟨ha, hb⟩, _⟩ := h2
      rw [← h1, ← ha, ← hb]
      dsimp only
      omega
    · by_cases hC1 : geomBothBefore v
      · rw [find_dark_bothBefore v _ hsr hC1, hd] at hdk
        rw [find_night_full cfg v (moonEv v) hsr
          (Or.inr (Or.inr (Or.inl hC1)))] at hn
        injection hn with h1
        split_ifs at hdk with halt
        · injection hdk with h2
          simp only [Prod.mk.injEq, Option.some.injEq] at h2
          obtain ⟨⟨ha, hb⟩, _⟩ := h2
          rw [← h1, ← ha, ← hb]
          dsimp only
          omega
        · simp at hdk
      · by_cases hC2 : geomBothAfter v
        · rw [find_dark_bothAfter v _ hsr hC2, hd] at hdk
          rw [find_night_full cfg v (moonEv v) hsr
            (Or.inr (Or.inr (Or.inr hC2)))] at hn
          injection hn with h1
          split_ifs at hdk with halt
          · injection hdk with h2
            simp only [Prod.mk.injEq, Option.some.injEq] at h2
            obtain ⟨⟨ha, hb⟩, _⟩ := h2
            rw [← h1, ← ha, ← hb]
            dsimp only
            omega
          · simp at hdk
        · rcases moonEv_cases v hl hsr with hnone |
            ⟨hmr, hb1, hb2⟩ | ⟨hms, hb1, hb2⟩
          · rw [hnone, find_night_none cfg v hA hB
              (fun hx => hx.elim hC1 hC2)] at hn
            simp at hn
          · rw [find_dark_moonrise v hl hsr hmr, hd] at hdk
            injection hdk with h2
            simp only [Prod.mk.injEq, Option.some.injEq] at h2
            obtain ⟨⟨ha, hb⟩, _⟩ := h2
            rw [find_night_moonrise cfg v hl hsr hmr] at hn
            split_ifs at hn with hfrac hdmin <;>
              (injection hn with h1; rw [← h1, ← ha, ← hb]; dsimp only; omega)
          · rw [find_dark_moonset v hl hsr hms, hd] at hdk
            injection hdk with h2
            simp only [Prod.mk.injEq, Option.some.injEq] at h2
            obtain ⟨⟨ha, hb⟩, _⟩ := h2
            rw [find_night_moonset cfg v hl hsr hms] at hn
            split_ifs at hn with hfrac hdmin <;>
              (injection hn with h1; rw [← h1, ← ha, ← hb]; dsimp only; omega)

theorem c9_witness :
    (classifyD defaultCfg recMoonriseInside).night.start_night.dt ≤
        recMoonriseInside.sunset.dt ∧
      recMoonriseInside.moonrise.dt ≤
        (classifyD defaultCfg recMoonriseInside).night.end_night.dt :=
  c9_dark_within_night defaultCfg recMoonriseInside
    (classifyD defaultCfg recMoonriseInside)
    recMoonriseInside.sunset recMoonriseInside.moonrise
    (by decide) (by decide) (by decide) (by decide)

/-- C5 fails on the code: with a bright moonrise inside the night
(sunset 0, moonrise 240, sunrise 660, all fractions 0.9 above the rhv
threshold) the night interval ends at the moonrise while the moon interval
runs from the moonrise to sunrise, so the moon interval ends after the
night interval ends. -/
theorem c5_counterexample :
    (classify defaultCfg recMoonriseInside).map
        (fun c => (c.moon, c.night.start_night.dt, c.night.end_night.dt)) =
      Except.ok (some (recMoonriseInside.moonrise, recMoonriseInside.sunrise),
        0, 240) ∧
      recMoonriseInside.sunset.dt < recMoonriseInside.sunrise.dt ∧
      recMoonriseInside.sunrise.dt > 240 := by decide

/-- C5 amended: whenever classification succeeds and a moon interval is
present it lies within the sunset-to-sunrise span, and it is contained in
the night interval whenever the night interval is the full
sunset-to-sunrise span; containment can fail only when a bright moon event
truncates the night interval. -/
theorem c5_moon_bounds (cfg : Config) (v : NightRecord) (c : ClassifiedNight)
    (a b : Event) (hl : wellLabelled v) (hsr : v.sunset.dt < v.sunrise.dt)
    (hc : classify cfg v = Except.ok c) (hmoon : c.moon = some (a, b)) :
    v.sunset.dt ≤ a.dt ∧ b.dt ≤ v.sunrise.dt ∧
      (c.night.start_night = v.sunset → c.night.end_night = v.sunrise →
        c.night.start_night.dt ≤ a.dt ∧ b.dt ≤ c.night.end_night.dt) := by
  obtain ⟨hme, hn, hdk, hm⟩ := classify_ok_inv cfg v c hl hsr hc
  have hP : v.sunset.dt ≤ a.dt ∧ b.dt ≤ v.sunrise.dt := by
    by_cases hA : geomUpAll v
    · rw [find_moon_upAll cfg v _ hA, hmoon] at hm
      injection hm with h2
      simp only [Prod.mk.injEq, Option.some.injEq] at h2
      obtain ⟨⟨ha, hb⟩, _⟩ := h2
      rw [← ha, ← hb]
      omega
    · by_cases hB : geomDownAll v
      · rw [find_moon_downAll cfg v _ hsr hB, hmoon] at hm
        simp at hm
      · by_cases hC1 : geomBothBefore v
        · rw [find_moon_bothBefore cfg v _ hsr hC1, hmoon] at hm
          split_ifs at hm <;> simp at hm
          obtain ⟨⟨ha, hb⟩, _⟩ := hm
          rw [ha, hb]
          omega
        · by_cases hC2 : geomBothAfter v
          · rw [find_moon_bothAfter cfg v _ hsr hC2, hmoon] at hm
            split_ifs at hm <;> simp at hm
            obtain ⟨⟨ha, hb⟩, _⟩ := hm
            rw [ha, hb]
            omega
          · rcases moonEv_cases v hl hsr with hnone |
              ⟨hmr, hb1, hb2⟩ | ⟨hms, hb1, hb2⟩
            · rw [hnone, find_night_none cfg v hA hB
                (fun hx => hx.elim hC1 hC2)] at hn
              simp at hn
            · rw [find_moon_moonrise cfg v hl hsr hmr, hmoon] at hm
              injection hm with h2
              simp only [Prod.mk.injEq, Option.some.injEq] at h2
              obtain ⟨⟨ha, hb⟩, _⟩ := h2
              rw [← ha, ← hb]
              omega
            · rw [find_moon_moonset cfg v hl hsr hms, hmoon] at hm
              injection hm with h2
              simp only [Prod.mk.injEq, Option.some.injEq] at h2
              obtain ⟨⟨ha, hb⟩, _⟩ := h2
              rw [← ha, ← hb]
              omega
  exact ⟨hP.1, hP.2, fun h1 h2 => by rw [h1, h2]; exact hP⟩

theorem c5_witness :
    recUpAllNight.sunset.dt ≤ recUpAllNight.sunset.dt ∧
      recUpAllNight.sunrise.dt ≤ recUpAllNight.sunrise.dt ∧
      ((classifyD defaultCfg recUpAllNight).night.start_night =
          recUpAllNight.sunset →
        (classifyD defaultCfg recUpAllNight).night.end_night =
          recUpAllNight.sunrise →
        (classifyD defaultCfg recUpAllNight).night.start_night.dt ≤
            recUpAllNight.sunset.dt ∧
          recUpAllNight.sunrise.dt ≤
            (classifyD defaultCfg recUpAllNight).night.end_night.dt) :=
  c5_moon_bounds defaultCfg recUpAllNight (classifyD defaultCfg recUpAllNight)
    recUpAllNight.sunset recUpAllNight.sunrise
    (by decide) (by decide) (by decide) (by decide)

/-- C3 fails on the code: with the moon up all night (moonrise -60 before
sunset 0, moonset 700 after sunrise 600) and all fractions 0.1 below the
default moon phase threshold 0.300, the moon interval is present but the
mode is None, not Moonlight as the peak-fraction rule would give. -/
theorem c3_counterexample :
    (classify defaultCfg recUpAllNight).map (fun c => (c.moon, c.moon_or_rhv)) =
      Except.ok (some (recUpAllNight.sunset, recUpAllNight.sunrise), none) ∧
      max recUpAllNight.sunset.moon_frac recUpAllNight.sunrise.moon_frac <
        defaultCfg.max_moon_phase := by decide

/-- C3 amended: the peak-fraction threshold rule for the moon mode holds in
the two cases where a moon event follows sunset inside the night; when the
moon is up all night by the first geometric test the moon interval is the
full night with mode None regardless of the fractions; and in the
both-before/both-after sub-cases a present moon interval forces the peak
fraction to be at least both thresholds, again with mode None (below the
thresholds the derivation aborts on the undefined names). -/
theorem c3_moon_mode (cfg : Config) (v : NightRecord) (c : ClassifiedNight)
    (hl : wellLabelled v) (hsr : v.sunset.dt < v.sunrise.dt)
    (hc : classify cfg v = Except.ok c) :
    (c.moon_event = some v.moonrise →
      c.moon = some (v.moonrise, v.sunrise) ∧
        c.moon_or_rhv =
          (if max v.moonrise.moon_frac v.sunrise.moon_frac < cfg.max_moon_phase
            then some MoonMode.moonlight
          else if max v.moonrise.moon_frac v.sunrise.moon_frac < cfg.max_rhv_phase
            then some MoonMode.rhv
          else none)) ∧
    (c.moon_event = some v.moonset →
      c.moon = some (v.sunset, v.moonset) ∧
        c.moon_or_rhv =
          (if max v.sunset.moon_frac v.moonset.moon_frac < cfg.max_moon_phase
            then some MoonMode.moonlight
          else if max v.sunset.moon_frac v.moonset.moon_frac < cfg.max_rhv_phase
            then some MoonMode.rhv
          else none)) ∧
    (geomUpAll v →
      c.moon = some (v.sunset, v.sunrise) ∧ c.moon_or_rhv = none) ∧
    ((geomBothBefore v ∨ geomBothAfter v) → c.moon ≠ none →
      c.moon = some (v.sunset, v.sunrise) ∧ c.moon_or_rhv = none ∧
        cfg.max_moon_phase ≤ max v.sunset.moon_frac v.sunrise.moon_frac ∧
        cfg.max_rhv_phase ≤ max v.sunset.moon_frac v.sunrise.moon_frac) := by
  obtain ⟨hme, hn, hdk, hm⟩ := classify_ok_inv cfg v c hl hsr hc
  refine ⟨?_, ?_, ?_, ?_⟩
  · intro h
    rw [hme] at h
    rw [find_moon_moonrise cfg v hl hsr h] at hm
    injection hm with h2
    simp only [Prod.mk.injEq] at h2
    exact ⟨h2.1.symm, h2.2.1.symm⟩
  · intro h
    rw [hme] at h
    rw [find_moon_moonset cfg v hl hsr h] at hm
    injection hm with h2
    simp only [Prod.mk.injEq] at h2
    exact ⟨h2.1.symm, h2.2.1.symm⟩
  · intro h
    rw [find_moon_upAll cfg v _ h] at hm
    injection hm with h2
    simp only [Prod.mk.injEq] at h2
    exact ⟨h2.1.symm, h2.2.1.symm⟩
  · intro hgeom hne
    have hrw : find_moon cfg v (moonEv v) =
        (if v.moonset.dt < v.moonrise.dt then
          (if max v.sunset.moon_frac v.sunrise.moon_frac < cfg.max_moon_phase then
            Except.error VError.nameError
          else if max v.sunset.moon_frac v.sunrise.moon_frac < cfg.max_rhv_phase then
            Except.error VError.nameError
          else
            Except.ok (some (v.sunset, v.sunrise), none,
              v.sunrise.dt - v.sunset.dt))
        else Except.ok (none, none, 0)) := by
      rcases hgeom with h | h
      · exact find_moon_bothBefore cfg v _ hsr h
      · exact find_moon_bothAfter cfg v _ hsr h
    rw [hrw] at hm
    split_ifs at hm with hup h1 h2
    · injection hm with h3
      simp only [Prod.mk.injEq] at h3
      obtain ⟨hma, hmb, _⟩ := h3
      exact ⟨hma.symm, hmb.symm, le_of_not_lt h1, le_of_not_lt h2⟩
    · injection hm with h3
      simp only [Prod.mk.injEq] at h3
      exact absurd h3.1.symm hne

theorem c3_witness :
    (classifyD defaultCfg recMoonriseInside).moon =
        some (recMoonriseInside.moonrise, recMoonriseInside.sunrise) ∧
      (classifyD defaultCfg recMoonriseInside).moon_or_rhv =
        (if max recMoonriseInside.moonrise.moon_frac
            recMoonriseInside.sunrise.moon_frac < defaultCfg.max_moon_phase
          then some MoonMode.moonlight
        else if max recMoonriseInside.moonrise.moon_frac
            recMoonriseInside.sunrise.moon_frac < defaultCfg.max_rhv_phase
          then some MoonMode.rhv
        else none) :=
  (c3_moon_mode defaultCfg recMoonriseInside
    (classifyD defaultCfg recMoonriseInside)
    (by decide) (by decide) (by decide)).1 (by decide)

theorem classify_ok_of_parts (cfg : Config) (v : NightRecord)
    (hl : wellLabelled v) (hsr : v.sunset.dt < v.sunrise.dt)
    (hnr : ∃ nr, find_night cfg v (moonEv v) = Except.ok nr)
    (hdke : ∃ dk, find_dark v (moonEv v) = Except.ok dk)
    (hmo : ∃ mo, find_moon cfg v (moonEv v) = Except.ok mo) :
    ∃ cl, classify cfg v = Except.ok cl := by
  obtain ⟨bt, hfe⟩ := find_events_ok v hl hsr
  obtain ⟨nr, h1⟩ := hnr
  obtain ⟨⟨dkI, dkD⟩, h2⟩ := hdke
  obtain ⟨⟨moI, moM, moD⟩, h3⟩ := hmo
  unfold classify
  rw [hfe]
  dsimp only
  rw [h1]
  dsimp only
  rw [h2]
  dsimp only
  rw [h3]
  exact ⟨_, rfl⟩

/-- C2 fails on the code: the record with sunset 0 before sunrise 600 but
moonrise exactly at sunrise (600) and moonset before sunset falls through
all four timestamp cases with no moon event located after sunset, so the
classification aborts reading `.label` of `None` instead of assigning a
result. -/
theorem c2_counterexample :
    classify defaultCfg recTieMoonriseSunrise =
        Except.error VError.attributeError ∧
      recTieMoonriseSunrise.sunset.dt < recTieMoonriseSunrise.sunrise.dt := by
  decide

/-- C2 amended: for records with sunset before sunrise in which neither
moon event falls exactly on sunrise, exactly one of the six geometric
cases applies, and the night and dark derivations always produce a result;
the full classification produces a result unless the moon derivation
reaches the undefined-name abort (both moon events on one side of the
night, moonset earlier than moonrise, peak sunset/sunrise fraction below a
threshold). -/
theorem c2_geometric_cases (cfg : Config) (v : NightRecord)
    (hl : wellLabelled v) (hsr : v.sunset.dt < v.sunrise.dt)
    (hts : v.moonset.dt ≠ v.sunrise.dt) (htr : v.moonrise.dt ≠ v.sunrise.dt) :
    caseCount v = 1 ∧
      (∃ nr, find_night cfg v (moonEv v) = Except.ok nr) ∧
      (∃ dk, find_dark v (moonEv v) = Except.ok dk) ∧
      (¬ nameErrCond cfg v → ∃ cl, classify cfg v = Except.ok cl) := by
  have hclash := moonrise_ne_moonset v hl
  have hd4 : moonEv v = none →
      geomUpAll v ∨ geomDownAll v ∨ geomBothBefore v ∨ geomBothAfter v := by
    intro hnone
    rcases moonEv_none_cases v hl hsr hnone with h | h | h | h | h | h
    · exact Or.inl h
    · exact Or.inr (Or.inl h)
    · exact Or.inr (Or.inr (Or.inl h))
    · exact Or.inr (Or.inr (Or.inr h))
    · exact absurd h hts
    · exact absurd h htr
  have hnight : ∃ nr, find_night cfg v (moonEv v) = Except.ok nr := by
    rcases moonEv_cases v hl hsr with hnone | ⟨hmr, hb1, hb2⟩ | ⟨hms, hb1, hb2⟩
    · exact ⟨_, find_night_full cfg v _ hsr (hd4 hnone)⟩
    · rw [find_night_moonrise cfg v hl hsr hmr]
      split_ifs <;> exact ⟨_, rfl⟩
    · rw [find_night_moonset cfg v hl hsr hms]
      split_ifs <;> exact ⟨_, rfl⟩
  have hdark : ∃ dk, find_dark v (moonEv v) = Except.ok dk := by
    rcases moonEv_cases v hl hsr with hnone | ⟨hmr, hb1, hb2⟩ | ⟨hms, hb1, hb2⟩
    · rcases hd4 hnone with h | h | h | h
      · exact ⟨_, find_dark_upAll v _ h⟩
      · exact ⟨_, find_dark_downAll v _ hsr h⟩
      · rw [find_dark_bothBefore v _ hsr h]
        split_ifs <;> exact ⟨_, rfl⟩
      · rw [find_dark_bothAfter v _ hsr h]
        split_ifs <;> exact ⟨_, rfl⟩
    · exact ⟨_, find_dark_moonrise v hl hsr hmr⟩
    · exact ⟨_, find_dark_moonset v hl hsr hms⟩
  have hmoonx : ¬ nameErrCond cfg v →
      ∃ mo, find_moon cfg v (moonEv v) = Except.ok mo := by
    intro hnerr
    rcases moonEv_cases v hl hsr with hnone | ⟨hmr, hb1, hb2⟩ | ⟨hms, hb1, hb2⟩
    · rcases hd4 hnone with h | h | h | h
      · exact ⟨_, find_moon_upAll cfg v _ h⟩
      · exact ⟨_, find_moon_downAll cfg v _ hsr h⟩
      · rw [find_moon_bothBefore cfg v _ hsr h]
        split_ifs with hup h1 h2
        · exact absurd ⟨Or.inl h, hup, Or.inl h1⟩ hnerr
        · exact absurd ⟨Or.inl h, hup, Or.inr h2⟩ hnerr
        · exact ⟨_, rfl⟩
        · exact ⟨_, rfl⟩
      · rw [find_moon_bothAfter cfg v _ hsr h]
        split_ifs with hup h1 h2
        · exact absurd ⟨Or.inr h, hup, Or.inl h1⟩ hnerr
        · exact absurd ⟨Or.inr h, hup, Or.inr h2⟩ hnerr
        · exact ⟨_, rfl⟩
        · exact ⟨_, rfl⟩
    · exact ⟨_, find_moon_moonrise cfg v hl hsr hmr⟩
    · exact ⟨_, find_moon_moonset cfg v hl hsr hms⟩
  refine ⟨?_, hnight, hdark,
    fun hnerr => classify_ok_of_parts cfg v hl hsr hnight hdark (hmoonx hnerr)⟩
  rcases moonEv_cases v hl hsr with hnone | ⟨hmr, hb1, hb2⟩ | ⟨hms, hb1, hb2⟩
  · unfold caseCount
    rw [hnone]
    have e1 : (if (none : Option Event) = some v.moonrise then 1 else 0) = 0 := by
      simp
    have e2 : (if (none : Option Event) = some v.moonset then 1 else 0) = 0 := by
      simp
    rw [e1, e2]
    rcases hd4 hnone with h | h | h | h <;>
      obtain ⟨hx, hy⟩ := h <;>
      simp only [geomUpAll, geomDownAll, geomBothBefore, geomBothAfter] <;>
      split_ifs <;> omega
  · unfold caseCount
    rw [hmr]
    simp only [geomUpAll, geomDownAll, geomBothBefore, geomBothAfter]
    rw [if_neg (by omega), if_neg (by omega), if_neg (by omega),
      if_neg (by omega)]
    simp [hclash]
  · unfold caseCount
    rw [hms]
    simp only [geomUpAll, geomDownAll, geomBothBefore, geomBothAfter]
    rw [if_neg (by omega), if_neg (by omega), if_neg (by omega),
      if_neg (by omega)]
    simp [Ne.symm hclash]

theorem c2_witness :
    ∃ cl, classify defaultCfg recMoonriseInside = Except.ok cl :=
  (c2_geometric_cases defaultCfg recMoonriseInside
    (by decide) (by decide) (by decide) (by decide)).2.2.2 (by decide)

theorem find_night_core_bounds (cfg : Config) (v : NightRecord) (s0 e0 : Event)
    (hl : wellLabelled v) (hsr : v.sunset.dt < v.sunrise.dt)
    (hcore : find_night_core cfg v (moonEv v) = Except.ok (s0, e0)) :
    v.sunset.dt ≤ s0.dt ∧ e0.dt ≤ v.sunrise.dt := by
  rcases moonEv_cases v hl hsr with hnone | ⟨hme, hb1, hb2⟩ | ⟨hme, hb1, hb2⟩
  · rw [hnone] at hcore
    unfold find_night_core at hcore
    dsimp only at hcore
    split_ifs at hcore with hA hB hC <;>
      (injection hcore with h
       simp only [Prod.mk.injEq] at h
       obtain ⟨h1, h2⟩ := h
       rw [← h1, ← h2]
       omega)
  · rw [hme] at hcore
    unfold find_night_core at hcore
    dsimp only at hcore
    rw [if_pos hl.2.2.2] at hcore
    split_ifs at hcore <;>
      (injection hcore with h
       simp only [Prod.mk.injEq] at h
       obtain ⟨h1, h2⟩ := h
       rw [← h1, ← h2]
       omega)
  · rw [hme] at hcore
    unfold find_night_core at hcore
    dsimp only at hcore
    have hlab : ¬(v.moonset.label = Label.moonrise) := by
      rw [hl.2.2.1]
      decide
    rw [if_neg hlab] at hcore
    split_ifs at hcore <;>
      (injection hcore with h
       simp only [Prod.mk.injEq] at h
       obtain ⟨h1, h2⟩ := h
       rw [← h1, ← h2]
       omega)

/-- C10: when the computed night interval is shorter than the minimum
interval, the re-widening step rewrites the night bounds to sunset and
sunrise but leaves the night duration at the value computed before
re-widening: the duration equals the pre-widening interval length, which
is at most the re-widened sunset-to-sunrise length. -/
theorem c10_rewiden_keeps_duration (cfg : Config) (v : NightRecord)
    (c : ClassifiedNight) (hl : wellLabelled v)
    (hsr : v.sunset.dt < v.sunrise.dt) (hc : classify cfg v = Except.ok c)
    (hdur : c.night.night_duration < cfg.minimum_interval) :
    c.night.start_night = v.sunset ∧ c.night.end_night = v.sunrise ∧
      (∃ s0 e0, find_night_core cfg v (moonEv v) = Except.ok (s0, e0) ∧
        c.night.night_duration = e0.dt - s0.dt) ∧
      c.night.night_duration ≤ v.sunrise.dt - v.sunset.dt := by
  obtain ⟨hme, hn, hdk, hm⟩ := classify_ok_inv cfg v c hl hsr hc
  unfold find_night at hn
  cases hcore : find_night_core cfg v (moonEv v) with
  | error e =>
    rw [hcore] at hn
    simp at hn
  | ok p =>
    obtain ⟨s0, e0⟩ := p
    obtain ⟨hs0, he0⟩ := find_night_core_bounds cfg v s0 e0 hl hsr hcore
    rw [hcore] at hn
    dsimp only at hn
    split_ifs at hn with hlt
    · injection hn with h
      refine ⟨by rw [← h], by rw [← h], ⟨s0, e0, rfl, by rw [← h]⟩, ?_⟩
      rw [← h]
      dsimp only
      omega
    · injection hn with h
      rw [← h] at hdur
      dsimp only at hdur
      exact absurd hdur (by omega)

theorem c10_witness :
    (classifyD defaultCfg recShortNight).night.start_night =
        recShortNight.sunset ∧
      (classifyD defaultCfg recShortNight).night.end_night =
        recShortNight.sunrise ∧
      (∃ s0 e0, find_night_core defaultCfg recShortNight
          (moonEv recShortNight) = Except.ok (s0, e0) ∧
        (classifyD defaultCfg recShortNight).night.night_duration =
          e0.dt - s0.dt) ∧
      (classifyD defaultCfg recShortNight).night.night_duration ≤
        recShortNight.sunrise.dt - recShortNight.sunset.dt :=
  c10_rewiden_keeps_duration defaultCfg recShortNight
    (classifyD defaultCfg recShortNight)
    (by decide) (by decide) (by decide) (by decide)

/-- C7 fails on the code: the record with sunrise 0 before sunset 10 and
both moon events after sunset (20, 30) has sunset after sunrise, yet
classification completes without any error: there is no sunset-vs-sunrise
check anywhere. -/
theorem c7_counterexample :
    (classify defaultCfg recSunsetAfterSunrise).map (fun _ => true) =
        Except.ok true ∧
      recSunsetAfterSunrise.sunrise.dt ≤ recSunsetAfterSunrise.sunset.dt := by
  decide

/-- C7 amended: classification fails with the index-out-of-bounds error
whenever sunset is strictly later than the three other events (the sorted
scan finds nothing after sunset); when sunset precedes sunrise the event
location step itself always succeeds, although the later derivations can
still abort (undefined names, moon event at sunrise). -/
theorem c7_failure_conditions (cfg : Config) (v : NightRecord)
    (hl : wellLabelled v) :
    (v.sunrise.dt < v.sunset.dt → v.moonset.dt < v.sunset.dt →
      v.moonrise.dt < v.sunset.dt →
      classify cfg v = Except.error VError.indexOutOfBounds) ∧
    (v.sunset.dt < v.sunrise.dt → ∃ x, find_events (slist v) = Except.ok x) := by
  constructor
  · intro h2 h3 h4
    have hfe := find_events_sunset_last v hl h2 h3 h4
    unfold classify
    rw [hfe]
  · intro hsr
    obtain ⟨b, h⟩ := find_events_ok v hl hsr
    exact ⟨_, h⟩

theorem c7_witness :
    classify defaultCfg recSunsetLast = Except.error VError.indexOutOfBounds :=
  (c7_failure_conditions defaultCfg recSunsetLast (by decide)).1
    (by decide) (by decide) (by decide)

/-- C6: on the dark-duration sequence [3h, 3h, 1h, 4h] with a 2h minimum
interval, starting from the zeroed state, the loop emits dark labels
DR1-01, DR1-02, nothing, DR2-01 and bright labels nothing, nothing,
BR1-01, nothing; in general a night is emitted as a dark-run member
exactly when its dark duration reaches the minimum interval, the first
qualifying night starts run 1 night 1, and a qualifying night after a
closed run is emitted with the reserved run number and night number 1. -/
theorem c6_run_accumulator :
    runNights 2 [3, 3, 1, 4] initialRunState =
      [(some (1, 1), none), (some (1, 2), none), (none, some (1, 1)),
        (some (2, 1), none)] ∧
    (∀ m d : ℤ, ∀ st : RunState,
      ((stepDark m d st).2).isSome = true ↔ m ≤ d) ∧
    (∀ m d : ℤ, ∀ st : RunState, m ≤ d → st.dark_run_number = 0 →
      (stepDark m d st).2 = some (1, 1)) ∧
    (∀ m d : ℤ, ∀ st : RunState, m ≤ d → st.dark_run_number ≠ 0 →
      st.dark_run_night_number = 0 →
      (stepDark m d st).2 = some (st.dark_run_number, 1)) := by
  refine ⟨by decide, ?_, ?_, ?_⟩
  · intro m d st
    unfold stepDark
    split_ifs with hq h0 <;> simp_all
  · intro m d st h h0
    unfold stepDark
    rw [if_pos h]
    dsimp only
    rw [if_pos h0]
  · intro m d st h h0 hz
    unfold stepDark
    rw [if_pos h]
    dsimp only
    rw [if_neg h0, hz]

theorem c6_witness :
    (stepDark 2 4 ⟨2, 0, 1, 0, false, true⟩).2 = some (2, 1) :=
  c6_run_accumulator.2.2.2 2 4 ⟨2, 0, 1, 0, false, true⟩
    (by decide) (by decide) (by decide)

set_option maxHeartbeats 3200000 in
/-- C8: the parser fails exactly when the field count is not 12 or one of
the timestamp/float fields fails to parse, and on success it builds the
record from the parsed values with no further validation. -/
theorem c8_parse_characterisation {σ : Type} (pts : σ → Option ℤ)
    (pf : σ → Option ℚ) :
    (∀ tokens : List σ, tokens.length ≠ 12 →
      parse_string pts pf tokens = none) ∧
    (∀ t0 t1 t2 t3 t4 t5 t6 t7 t8 t9 t10 t11 : σ,
      (parse_string pts pf
          [t0, t1, t2, t3, t4, t5, t6, t7, t8, t9, t10, t11]).isSome = true ↔
        ((pts t0).isSome = true ∧ (pf t1).isSome = true ∧
          (pf t2).isSome = true ∧ (pts t3).isSome = true ∧
          (pf t4).isSome = true ∧ (pf t5).isSome = true ∧
          (pts t6).isSome = true ∧ (pf t7).isSome = true ∧
          (pf t8).isSome = true ∧ (pts t9).isSome = true ∧
          (pf t10).isSome = true ∧ (pf t11).isSome = true)) ∧
    (∀ t0 t1 t2 t3 t4 t5 t6 t7 t8 t9 t10 t11 : σ,
      ∀ a0 : ℤ, ∀ a1 a2 : ℚ, ∀ a3 : ℤ, ∀ a4 a5 : ℚ, ∀ a6 : ℤ, ∀ a7 a8 : ℚ,
      ∀ a9 : ℤ, ∀ a10 a11 : ℚ,
      pts t0 = some a0 → pf t1 = some a1 → pf t2 = some a2 →
      pts t3 = some a3 → pf t4 = some a4 → pf t5 = some a5 →
      pts t6 = some a6 → pf t7 = some a7 → pf t8 = some a8 →
      pts t9 = some a9 → pf t10 = some a10 → pf t11 = some a11 →
      parse_string pts pf [t0, t1, t2, t3, t4, t5, t6, t7, t8, t9, t10, t11] =
        some ⟨⟨a0, a1, a2, Label.sunset⟩, ⟨a3, a4, a5, Label.sunrise⟩,
          ⟨a6, a7, a8, Label.moonset⟩, ⟨a9, a10, a11, Label.moonrise⟩⟩) := by
  refine ⟨?_, ?_, ?_⟩
  · intro tokens h
    unfold parse_string
    rw [if_pos h]
  · intro t0 t1 t2 t3 t4 t5 t6 t7 t8 t9 t10 t11
    unfold parse_string
    rcases h0 : pts t0 with _ | a0
    · simp [h0]
    rcases h1 : pf t1 with _ | a1
    · simp [h0, h1]
    rcases h2 : pf t2 with _ | a2
    · simp [h0, h1, h2]
    rcases h3 : pts t3 with _ | a3
    · simp [h0, h1, h2, h3]
    rcases h4 : pf t4 with _ | a4
    · simp [h0, h1, h2, h3, h4]
    rcases h5 : pf t5 with _ | a5
    · simp [h0, h1, h2, h3, h4, h5]
    rcases h6 : pts t6 with _ | a6
    · simp [h0, h1, h2, h3, h4, h5, h6]
    rcases h7 : pf t7 with _ | a7
    · simp [h0, h1, h2, h3, h4, h5, h6, h7]
    rcases h8 : pf t8 with _ | a8
    · simp [h0, h1, h2, h3, h4, h5, h6, h7, h8]
    rcases h9 : pts t9 with _ | a9
    · simp [h0, h1, h2, h3, h4, h5, h6, h7, h8, h9]
    rcases h10 : pf t10 with _ | a10
    · simp [h0, h1, h2, h3, h4, h5, h6, h7, h8, h9, h10]
    rcases h11 : pf t11 with _ | a11
    · simp [h0, h1, h2, h3, h4, h5, h6, h7, h8, h9, h10, h11]
    simp [h0, h1, h2, h3, h4, h5, h6, h7, h8, h9, h10, h11]
  · intro t0 t1 t2 t3 t4 t5 t6 t7 t8 t9 t10 t11
      a0 a1 a2 a3 a4 a5 a6 a7 a8 a9 a10 a11
      h0 h1 h2 h3 h4 h5 h6 h7 h8 h9 h10 h11
    unfold parse_string
    simp [h0, h1, h2, h3, h4, h5, h6, h7, h8, h9, h10, h11]

theorem c8_witness :
    parse_string (fun n : ℕ => some (n : ℤ)) (fun n : ℕ => some (n : ℚ))
        [0, 1, 2, 3, 4, 5, 6, 7, 8, 9, 10, 11] =
      some ⟨⟨0, 1, 2, Label.sunset⟩, ⟨3, 4, 5, Label.sunrise⟩,
        ⟨6, 7, 8, Label.moonset⟩, ⟨9, 10, 11, Label.moonrise⟩⟩ :=
  (c8_parse_characterisation (fun n : ℕ => some (n : ℤ))
    (fun n : ℕ => some (n : ℚ))).2.2
    0 1 2 3 4 5 6 7 8 9 10 11 0 1 2 3 4 5 6 7 8 9 10 11
    rfl rfl rfl rfl rfl rfl rfl rfl rfl rfl rfl rfl
